import Mathlib

/-!
Verification of the FinGenius core: the research orchestrator
(`src/environment/research.py`) and the market-data provider facade
(`src/tool/data_provider/`), shallowly embedded in Lean 4.

Python dictionaries are modelled as insertion-ordered association lists
with unique keys (`PyDict`); dictionary assignment keeps the position of
an overwritten key, matching CPython semantics.
-/

/-- Values flowing through the orchestrator and providers: strings,
integers, nested dictionaries and lists (the JSON-like payloads the
Python code passes around). -/
inductive RVal where
  | str (s : String)
  | num (n : Int)
  | dict (entries : List (String × RVal))
  | list (vs : List RVal)

/-- A Python dict with string keys, as an insertion-ordered association list. -/
abbrev PyDict := List (String × RVal)

/-- Dictionary lookup (`d[k]` / `d.get(k)`), first matching key. -/
def dlookup (k : String) : PyDict → Option RVal
  | [] => none
  | (k1, v) :: rest => if k1 = k then some v else dlookup k rest

/-- Dictionary assignment `d[k] = v`: overwrite in place if the key is
present, otherwise append at the end (CPython insertion order). -/
def listInsert (k : String) (v : RVal) : PyDict → PyDict
  | [] => [(k, v)]
  | (k1, v1) :: rest => if k1 = k then (k, v) :: rest else (k1, v1) :: listInsert k v rest

/-- Outcome of awaiting one specialist task under
`asyncio.gather(..., return_exceptions=True)`: either the value the
agent's `run` returned, or the exception it raised (carrying its
message). -/
inductive ExecResult where
  | ok (v : RVal)
  | exn (msg : String)

/-- Truthiness of an optional string in Python: `None` and `""` are
falsy, every other string is truthy. -/
def optStrTruthy : Option String → Bool
  | none => false
  | some s => !s.isEmpty

/-- The `ToolResult` returned by `StockInfoRequest.execute`: an optional
error string and an output dictionary. -/
structure ToolResult where
  error : Option String
  output : PyDict

namespace ResearchEnvironment

/-- The fixed role table of `ResearchEnvironment.analysis_mapping`:
agent key paired with the result key its outcome is stored under. -/
def analysis_mapping : List (String × String) :=
  [("sentiment_agent", "sentiment"),
   ("risk_control_agent", "risk"),
   ("hot_money_agent", "hot_money"),
   ("technical_analysis_agent", "technical"),
   ("chip_analysis_agent", "chip_analysis"),
   ("big_deal_analysis_agent", "big_deal")]

/-- The agent keys `initialize` registers: all six specialists. -/
def registeredAll : List String := analysis_mapping.map Prod.fst

/-- The value stored for one settled task in the aggregation loop of
`run`: a formatted failure string `"Error: " + str(e)` when the task
raised, the returned value verbatim otherwise. -/
def outcomeVal : ExecResult → RVal
  | .ok v => v
  | .exn m => .str ("Error: " ++ m)

/-- The aggregation loop of `run` (lines 100-106): walk
`zip(analysis_mapping.items(), task_results)` and store each outcome
under the zipped result key. Note the zip is over the FULL mapping while
`task_results` only covers registered agents. -/
def aggregateResults (pairs : List ((String × String) × ExecResult)) : PyDict :=
  pairs.foldl (fun results p => listInsert p.1.2 (outcomeVal p.2) results) []

/-- Shallow embedding of `ResearchEnvironment.run` (research.py lines
59-124). `agents` is the set of registered agent keys (`self.agents`),
`behavior` gives each dispatched agent's task outcome for this stock
code, `basic_info_result` is what `StockInfoRequest.execute` returned. -/
def run (agents : List String) (behavior : String → ExecResult)
    (basic_info_result : ToolResult) (stock_code : String) : PyDict :=
  let task_results :=
    (analysis_mapping.filter (fun p => agents.contains p.1)).map (fun p => behavior p.1)
  let results := aggregateResults (analysis_mapping.zip task_results)
  if results.isEmpty then
    [("error", RVal.str "No specialist agents completed successfully"),
     ("stock_code", RVal.str stock_code)]
  else
    let results :=
      if !optStrTruthy basic_info_result.error then
        listInsert "basic_info" (RVal.dict basic_info_result.output) results
      else results
    listInsert "stock_code" (RVal.str stock_code) results

end ResearchEnvironment

/-- Python `s.startswith(c)` for a single-character argument, as used by
the code translators: true iff the first character of `s` is `c`. -/
def pyStartsWith1 (s : String) (c : Char) : Bool :=
  match s.data with
  | [] => false
  | d :: _ => d == c

namespace TushareProvider

/-- Embedding of `TushareProvider._convert_to_ts_code`: map a canonical
code to tushare's suffixed format by its leading digit. -/
def convert_to_ts_code (stock_code : String) : String :=
  if pyStartsWith1 stock_code '6' then stock_code ++ ".SH"
  else if pyStartsWith1 stock_code '0' || pyStartsWith1 stock_code '3' then stock_code ++ ".SZ"
  else if pyStartsWith1 stock_code '8' || pyStartsWith1 stock_code '4' then stock_code ++ ".BJ"
  else stock_code ++ ".SH"

end TushareProvider

namespace RQDataProvider

/-- Embedding of `RQDataProvider._convert_to_rq_code`: map a canonical
code to RQData's suffixed format by its leading digit. -/
def convert_to_rq_code (stock_code : String) : String :=
  if pyStartsWith1 stock_code '6' then stock_code ++ ".XSHG"
  else if pyStartsWith1 stock_code '0' || pyStartsWith1 stock_code '3' then stock_code ++ ".XSHE"
  else if pyStartsWith1 stock_code '8' || pyStartsWith1 stock_code '4' then stock_code ++ ".XSES"
  else stock_code ++ ".XSHG"

end RQDataProvider

/-- A resolved data-provider instance, remembering which backend it is
and the credentials it was constructed with. -/
inductive Provider where
  | tushare (token : String)
  | rqdata (username password : String)
  | akshare
deriving DecidableEq

/-- The `data_provider_config` section the selector reads: provider mode
plus the three credential fields, each possibly unset. -/
structure DataProviderConfig where
  provider : String
  tushare_token : Option String
  rqdata_username : Option String
  rqdata_password : Option String

/-- Python `a or b` on two optional provider values: the left one if it
is truthy (non-None), otherwise the right one. -/
def orNone : Option Provider → Option Provider → Option Provider
  | some p, _ => some p
  | none, q => q

namespace DataProvider

/-- The credential guard of `try_tushare` (line 24): the token is
configured (truthy) and is not the placeholder `"invalid_token"`. -/
def tushareCredOk (cfg : DataProviderConfig) : Bool :=
  optStrTruthy cfg.tushare_token && cfg.tushare_token != some "invalid_token"

/-- The credential guard of `try_rqdata` (line 38): both username and
password are configured (truthy). -/
def rqdataCredOk (cfg : DataProviderConfig) : Bool :=
  optStrTruthy cfg.rqdata_username && optStrTruthy cfg.rqdata_password

/-- Embedding of `try_tushare`: with credentials configured, construct
the provider and probe it with one `trade_cal` call; `tushareOk` is the
oracle for whether that construction-plus-probe raises. Any exception,
or missing credentials, yields `None`. -/
def try_tushare (cfg : DataProviderConfig) (tushareOk : Bool) : Option Provider :=
  if tushareCredOk cfg then
    if tushareOk then some (Provider.tushare (cfg.tushare_token.getD "")) else none
  else none

/-- Embedding of `try_rqdata`: with both credentials configured, the
constructor call is itself the health check; `rqdataOk` is the oracle
for whether it raises. -/
def try_rqdata (cfg : DataProviderConfig) (rqdataOk : Bool) : Option Provider :=
  if rqdataCredOk cfg then
    if rqdataOk then some (Provider.rqdata (cfg.rqdata_username.getD "") (cfg.rqdata_password.getD "")) else none
  else none

/-- Embedding of `try_akshare`: construction needs no credentials and
always succeeds. -/
def try_akshare : Provider := Provider.akshare

/-- The two exception kinds `get_data_provider` can raise: `ValueError`
for an unknown mode, `RuntimeError` when the chosen backend could not be
initialized. -/
inductive SelErr where
  | valueError (msg : String)
  | runtimeError (msg : String)
deriving DecidableEq

/-- The mode dispatch of `get_data_provider` (lines 52-61): what gets
assigned to `_provider_instance`, or the `ValueError` for an unknown
mode. -/
def selectInstance (cfg : DataProviderConfig) (tushareOk rqdataOk : Bool) :
    Except String (Option Provider) :=
  if cfg.provider == "auto" then
    .ok (orNone (try_tushare cfg tushareOk) (orNone (try_rqdata cfg rqdataOk) (some try_akshare)))
  else if cfg.provider == "tushare" then .ok (try_tushare cfg tushareOk)
  else if cfg.provider == "rqdata" then .ok (try_rqdata cfg rqdataOk)
  else if cfg.provider == "akshare" then .ok (some try_akshare)
  else .error ("Unknown data provider: " ++ cfg.provider)

/-- Embedding of `get_data_provider`. `cache` is the module global
`_provider_instance` before the call (`none` both when never assigned
and when assigned `None`, since the guard on line 17 tests truthiness).
Returns the call's outcome (provider or raised error) paired with the
global's value after the call. -/
def get_data_provider (cache : Option Provider) (cfg : DataProviderConfig)
    (tushareOk rqdataOk : Bool) : Except SelErr Provider × Option Provider :=
  match cache with
  | some p => (.ok p, some p)
  | none =>
    match selectInstance cfg tushareOk rqdataOk with
    | .error msg => (.error (SelErr.valueError msg), none)
    | .ok none =>
      (.error (SelErr.runtimeError ("Could not initialize data provider: " ++ cfg.provider)), none)
    | .ok (some p) => (.ok p, some p)

end DataProvider

/-- One row of a pandas DataFrame, as the dictionary `row.to_dict()`
produces. -/
abbrev Row := PyDict

/-- A pandas DataFrame as its list of rows; `df.empty` is `rows.isEmpty`. -/
abbrev DataFrame := List Row

/-- Python `dict.update(other)`: fold the other dictionary's entries
into this one by assignment. -/
def dictUpdate (d other : PyDict) : PyDict :=
  other.foldl (fun acc p => listInsert p.1 p.2 acc) d

/-- Python `dict(zip(keys, values))` over already-paired columns. -/
def dictOfPairs (pairs : List (String × RVal)) : PyDict :=
  pairs.foldl (fun acc p => listInsert p.1 p.2 acc) []

/-- Python `s.split('.')[0]`. -/
def headBeforeDot (s : String) : String := (s.splitOn ".").headD ""

namespace AkshareProvider

/-- Embedding of `AkshareProvider.get_stock_basic_info`. `remote` is the
`ak.stock_individual_info_em` call, returning the two-column
item / value frame or raising; on any exception the method returns
`None`, on an empty frame `None`, otherwise `dict(zip(items, values))`. -/
def get_stock_basic_info (remote : String → Except String (List (String × RVal)))
    (stock_code : String) : Option PyDict :=
  match remote stock_code with
  | .error _ => none
  | .ok rows => if rows.isEmpty then none else some (dictOfPairs rows)

/-- Embedding of `AkshareProvider.get_daily_market_data`: call
`ak.stock_zh_a_hist` with the dashes stripped from both dates, return
its frame, or `None` on any exception. -/
def get_daily_market_data (remote : String → String → String → Except String DataFrame)
    (stock_code start_date end_date : String) : Option DataFrame :=
  match remote stock_code (start_date.replace "-" "") (end_date.replace "-" "") with
  | .error _ => none
  | .ok df => some df

/-- The quote-building loop of `AkshareProvider.get_real_time_quotes`:
key each row's dictionary by its `代码` column. A row without that
column raises `KeyError` in the source, which the surrounding handler
turns into `None`. -/
def quotesLoop : List Row → PyDict → Option PyDict
  | [], acc => some acc
  | row :: rest, acc =>
    match dlookup "代码" row with
    | some (RVal.str code) => quotesLoop rest (listInsert code (RVal.dict row) acc)
    | _ => none

/-- Embedding of `AkshareProvider.get_real_time_quotes`: join the codes
with commas, call `ak.stock_zh_a_spot_em`, and build the per-code quote
map; any exception or an empty frame yields `None`. -/
def get_real_time_quotes (remote : String → Except String (List Row))
    (stock_codes : List String) : Option PyDict :=
  match remote (String.intercalate "," stock_codes) with
  | .error _ => none
  | .ok df => if df.isEmpty then none else quotesLoop df []

end AkshareProvider

namespace TushareProvider

/-- Embedding of `TushareProvider.get_stock_basic_info`: fetch
`stock_basic` (empty frame means `None`), take its first row, then merge
in the first row of `daily_basic` when that frame is non-empty; any
exception from either call yields `None`. -/
def get_stock_basic_info (remoteStockBasic remoteDailyBasic : String → Except String DataFrame)
    (stock_code : String) : Option PyDict :=
  let ts_code := convert_to_ts_code stock_code
  match remoteStockBasic ts_code with
  | .error _ => none
  | .ok stock_basic_df =>
    match stock_basic_df with
    | [] => none
    | stock_info :: _ =>
      match remoteDailyBasic ts_code with
      | .error _ => none
      | .ok daily_basic_df =>
        match daily_basic_df with
        | [] => some stock_info
        | row :: _ => some (dictUpdate stock_info row)

/-- Embedding of `TushareProvider.get_daily_market_data`: call
`pro.daily` on the translated code with dashes stripped from the dates;
`None` on any exception. -/
def get_daily_market_data (remote : String → String → String → Except String DataFrame)
    (stock_code start_date end_date : String) : Option DataFrame :=
  match remote (convert_to_ts_code stock_code) (start_date.replace "-" "") (end_date.replace "-" "") with
  | .error _ => none
  | .ok df => some df

/-- The quote-building loop of `TushareProvider.get_real_time_quotes`:
key each row by its `ts_code` column with the suffix stripped. A row
without that column raises in the source, which the handler turns into
`None`. -/
def quotesLoop : List Row → PyDict → Option PyDict
  | [], acc => some acc
  | row :: rest, acc =>
    match dlookup "ts_code" row with
    | some (RVal.str code) => quotesLoop rest (listInsert (headBeforeDot code) (RVal.dict row) acc)
    | _ => none

/-- Embedding of `TushareProvider.get_real_time_quotes`: translate every
code, join with commas, call `pro.daily_basic`, and key the rows by
their suffix-stripped `ts_code`; any exception or an empty frame yields
`None`. -/
def get_real_time_quotes (remote : String → Except String (List Row))
    (stock_codes : List String) : Option PyDict :=
  let ts_codes := stock_codes.map convert_to_ts_code
  match remote (String.intercalate "," ts_codes) with
  | .error _ => none
  | .ok df => if df.isEmpty then none else quotesLoop df []

end TushareProvider

namespace RQDataProvider

/-- Embedding of `RQDataProvider.get_stock_basic_info`: look the
translated code up with `rqdatac.instruments`; a falsy instrument means
`None`, otherwise `vars(instrument)`; any exception yields `None`. -/
def get_stock_basic_info (remote : String → Except String (Option Row))
    (stock_code : String) : Option PyDict :=
  match remote (convert_to_rq_code stock_code) with
  | .error _ => none
  | .ok none => none
  | .ok (some instrument) => some instrument

/-- Embedding of `RQDataProvider.get_daily_market_data`: call
`rqdatac.get_price` on the translated code; `None` on any exception. -/
def get_daily_market_data (remote : String → String → String → Except String DataFrame)
    (stock_code start_date end_date : String) : Option DataFrame :=
  match remote (convert_to_rq_code stock_code) start_date end_date with
  | .error _ => none
  | .ok df => some df

/-- The quote-building loop of `RQDataProvider.get_real_time_quotes`:
the snapshot frame is indexed by the RQData code, and each row is keyed
by that index with the suffix stripped. -/
def quotesLoop : List (String × Row) → PyDict → PyDict
  | [], acc => acc
  | (rq_code, row) :: rest, acc =>
    quotesLoop rest (listInsert (headBeforeDot rq_code) (RVal.dict row) acc)

/-- Embedding of `RQDataProvider.get_real_time_quotes`: translate every
code, call `rqdatac.current_snapshot`, and key the rows by their
suffix-stripped index; any exception or an empty frame yields `None`. -/
def get_real_time_quotes (remote : List String → Except String (List (String × Row)))
    (stock_codes : List String) : Option PyDict :=
  let rq_codes := stock_codes.map convert_to_rq_code
  match remote rq_codes with
  | .error _ => none
  | .ok snapshot_df => if snapshot_df.isEmpty then none else some (quotesLoop snapshot_df [])

end RQDataProvider

/-- State of one specialist task relative to the admission gate in
`ResearchEnvironment.run`: not yet admitted, inside `agent.run`, or
finished (slot released). -/
inductive TaskState where
  | pending
  | running
  | taskDone
deriving DecidableEq

/-- Scheduler state for the fan-out in `run`: the current value of
`asyncio.Semaphore(3)` and the state of each launched task. -/
structure SchedState where
  sem : Nat
  tasks : List TaskState
deriving DecidableEq

/-- Initial scheduler state for `n` launched tasks: the semaphore at its
initial value 3, every task awaiting admission. -/
def initState (n : Nat) : SchedState :=
  ⟨3, List.replicate n TaskState.pending⟩

/-- The cooperative steps of `run_with_semaphore` (research.py lines
87-98): a pending task may enter `agent.run` only by acquiring the
semaphore (which must be positive), and a running task's exit releases
it. Any interleaving of these atomic steps is allowed. -/
inductive SchedStep : SchedState → SchedState → Prop where
  | acquire (i : Nat) (s : SchedState) (hi : s.tasks.get? i = some TaskState.pending)
      (hsem : 0 < s.sem) :
      SchedStep s ⟨s.sem - 1, s.tasks.set i TaskState.running⟩
  | release (i : Nat) (s : SchedState) (hi : s.tasks.get? i = some TaskState.running) :
      SchedStep s ⟨s.sem + 1, s.tasks.set i TaskState.taskDone⟩

/-- Number of specialist tasks currently inside `agent.run`. -/
def runningCount (s : SchedState) : Nat :=
  s.tasks.countP (fun t => t == TaskState.running)

lemma countP_set (p : TaskState → Bool) :
    ∀ (l : List TaskState) (i : Nat) (a b : TaskState), l.get? i = some a →
      (l.set i b).countP p + (if p a then 1 else 0) =
        l.countP p + (if p b then 1 else 0) := by
  intro l
  induction l with
  | nil => intro i a b h; simp at h
  | cons hd tl ih =>
    intro i a b h
    cases i with
    | zero =>
      rw [List.get?_cons_zero] at h
      injection h with h
      subst h
      simp only [List.set, List.countP_cons]
      split_ifs <;> omega
    | succ n =>
      rw [List.get?_cons_succ] at h
      have hrec := ih n a b h
      simp only [List.set, List.countP_cons]
      split_ifs at hrec ⊢ <;> omega

/-- The semaphore invariant tying the gate's remaining capacity to the
number of tasks inside `agent.run`: together they always account for
the initial capacity 3. -/
def semInv (s : SchedState) : Prop := s.sem + runningCount s = 3

lemma countP_running_replicate_pending (n : Nat) :
    (List.replicate n TaskState.pending).countP (fun t => t == TaskState.running) = 0 := by
  induction n with
  | zero => rfl
  | succ k ih => simp [List.replicate, List.countP_cons, ih]

lemma semInv_init (n : Nat) : semInv (initState n) := by
  simp [semInv, initState, runningCount, countP_running_replicate_pending]

lemma semInv_step {s s2 : SchedState} (h : SchedStep s s2) (hinv : semInv s) : semInv s2 := by
  cases h with
  | acquire i s hi hsem =>
    have hc := countP_set (fun t => t == TaskState.running) s.tasks i
      TaskState.pending TaskState.running hi
    simp only [semInv, runningCount] at hinv ⊢
    simp at hc
    omega
  | release i s hi =>
    have hc := countP_set (fun t => t == TaskState.running) s.tasks i
      TaskState.running TaskState.taskDone hi
    simp only [semInv, runningCount] at hinv ⊢
    simp at hc
    omega

lemma semInv_reachable {n : Nat} {s : SchedState}
    (h : Relation.ReflTransGen SchedStep (initState n) s) : semInv s := by
  induction h with
  | refl => exact semInv_init n
  | tail _ hstep ih => exact semInv_step hstep ih

/-- Claim C9: during every run, no matter how many specialist tasks are
launched and however their cooperative steps interleave, the number of
tasks simultaneously inside a specialist's `run` never exceeds the
semaphore capacity 3. -/
theorem C9_semaphore_bound (n : Nat) (s : SchedState)
    (h : Relation.ReflTransGen SchedStep (initState n) s) : runningCount s ≤ 3 := by
  have hinv := semInv_reachable h
  simp only [semInv] at hinv
  omega

theorem C9_semaphore_bound_witness :
    runningCount ⟨2, [TaskState.running, TaskState.pending, TaskState.pending,
      TaskState.pending, TaskState.pending, TaskState.pending]⟩ ≤ 3 :=
  C9_semaphore_bound 6 _ (Relation.ReflTransGen.single
    (SchedStep.acquire 0 (initState 6) rfl (by decide)))

/-- Whether a settled task delivered an exception. -/
def isExn : ExecResult → Bool
  | .ok _ => false
  | .exn _ => true

namespace ResearchEnvironment

lemma run_all6_lookup (behavior : String → ExecResult) (bi : ToolResult) (code : String)
    (p : String × String) (hp : p ∈ analysis_mapping) :
    dlookup p.2 (run registeredAll behavior bi code) = some (outcomeVal (behavior p.1)) := by
  have hp2 : p = ("sentiment_agent", "sentiment") ∨ p = ("risk_control_agent", "risk") ∨
      p = ("hot_money_agent", "hot_money") ∨ p = ("technical_analysis_agent", "technical") ∨
      p = ("chip_analysis_agent", "chip_analysis") ∨
      p = ("big_deal_analysis_agent", "big_deal") := by
    simpa [analysis_mapping] using hp
  cases herr : optStrTruthy bi.error <;>
    rcases hp2 with rfl | rfl | rfl | rfl | rfl | rfl <;>
      simp only [run, herr] <;> rfl

lemma run_all6_no_error_key (behavior : String → ExecResult) (bi : ToolResult) (code : String) :
    dlookup "error" (run registeredAll behavior bi code) = none := by
  cases herr : optStrTruthy bi.error <;> simp only [run, herr] <;> rfl

end ResearchEnvironment

/-- Claim C2: with all six specialists registered, a run in which two
specialist tasks raise and the other four return values produces all six
specialist entries — each raising specialist's slot holding the
formatted failure string `"Error: " + message`, each succeeding
specialist's slot holding its returned value verbatim — and `run`
returns that mapping rather than raising (no top-level `error` entry is
produced). -/
theorem C2_two_raise_four_succeed (behavior : String → ExecResult) (bi : ToolResult)
    (code : String)
    (_hTwo : ((ResearchEnvironment.analysis_mapping.map Prod.fst).filter
        (fun k => isExn (behavior k))).length = 2) :
    ((ResearchEnvironment.analysis_mapping.map Prod.snd).filter
        (fun rk => (dlookup rk (ResearchEnvironment.run ResearchEnvironment.registeredAll
          behavior bi code)).isSome)).length = 6 ∧
    (∀ ak rk m, (ak, rk) ∈ ResearchEnvironment.analysis_mapping → behavior ak = .exn m →
      dlookup rk (ResearchEnvironment.run ResearchEnvironment.registeredAll behavior bi code) =
        some (RVal.str ("Error: " ++ m))) ∧
    (∀ ak rk v, (ak, rk) ∈ ResearchEnvironment.analysis_mapping → behavior ak = .ok v →
      dlookup rk (ResearchEnvironment.run ResearchEnvironment.registeredAll behavior bi code) =
        some v) ∧
    dlookup "error" (ResearchEnvironment.run ResearchEnvironment.registeredAll behavior bi code) =
      none := by
  refine ⟨?_, ?_, ?_, ResearchEnvironment.run_all6_no_error_key behavior bi code⟩
  · have h1 := ResearchEnvironment.run_all6_lookup behavior bi code
      ("sentiment_agent", "sentiment") (by simp [ResearchEnvironment.analysis_mapping])
    have h2 := ResearchEnvironment.run_all6_lookup behavior bi code
      ("risk_control_agent", "risk") (by simp [ResearchEnvironment.analysis_mapping])
    have h3 := ResearchEnvironment.run_all6_lookup behavior bi code
      ("hot_money_agent", "hot_money") (by simp [ResearchEnvironment.analysis_mapping])
    have h4 := ResearchEnvironment.run_all6_lookup behavior bi code
      ("technical_analysis_agent", "technical") (by simp [ResearchEnvironment.analysis_mapping])
    have h5 := ResearchEnvironment.run_all6_lookup behavior bi code
      ("chip_analysis_agent", "chip_analysis") (by simp [ResearchEnvironment.analysis_mapping])
    have h6 := ResearchEnvironment.run_all6_lookup behavior bi code
      ("big_deal_analysis_agent", "big_deal") (by simp [ResearchEnvironment.analysis_mapping])
    simp [ResearchEnvironment.analysis_mapping, h1, h2, h3, h4, h5, h6]
  · intro ak rk m hmem hb
    have hl := ResearchEnvironment.run_all6_lookup behavior bi code (ak, rk) hmem
    rw [hl, hb]
    rfl
  · intro ak rk v hmem hb
    have hl := ResearchEnvironment.run_all6_lookup behavior bi code (ak, rk) hmem
    rw [hl, hb]
    rfl

/-- A concrete behavior for the C2 witness: the sentiment and risk tasks
raise, the other four return values. -/
def behaviorTwoFail : String → ExecResult := fun k =>
  if k = "sentiment_agent" then .exn "sentiment boom"
  else if k = "risk_control_agent" then .exn "risk boom"
  else .ok (RVal.str ("analysis by " ++ k))

theorem C2_two_raise_four_succeed_witness :
    ((ResearchEnvironment.analysis_mapping.map Prod.fst).filter
        (fun k => isExn (behaviorTwoFail k))).length = 2 ∧
    dlookup "sentiment" (ResearchEnvironment.run ResearchEnvironment.registeredAll
        behaviorTwoFail ⟨none, []⟩ "600519") =
      some (RVal.str ("Error: " ++ "sentiment boom")) ∧
    dlookup "technical" (ResearchEnvironment.run ResearchEnvironment.registeredAll
        behaviorTwoFail ⟨none, []⟩ "600519") =
      some (RVal.str ("analysis by " ++ "technical_analysis_agent")) :=
  ⟨rfl,
   (C2_two_raise_four_succeed behaviorTwoFail ⟨none, []⟩ "600519" rfl).2.1
     "sentiment_agent" "sentiment" "sentiment boom"
     (by simp [ResearchEnvironment.analysis_mapping]) rfl,
   (C2_two_raise_four_succeed behaviorTwoFail ⟨none, []⟩ "600519" rfl).2.2.1
     "technical_analysis_agent" "technical" (RVal.str ("analysis by " ++ "technical_analysis_agent"))
     (by simp [ResearchEnvironment.analysis_mapping]) rfl⟩

/-- Claim C1 (refuting evaluation): with only the risk-control
specialist registered, the aggregation loop zips the full role table
against the single task result, so the risk specialist's own outcome is
recorded under the sentiment role's result key and no entry exists under
the risk role's key — the result mapping misattributes outcomes for
non-prefix subsets of registered specialists. -/
theorem C1_subset_misattributes_outcome :
    dlookup "sentiment"
        (ResearchEnvironment.run ["risk_control_agent"]
          (fun _ => ExecResult.ok (RVal.str "risk-analysis-output"))
          ⟨some "fetch failed", []⟩ "600519") =
      some (RVal.str "risk-analysis-output") ∧
    dlookup "risk"
        (ResearchEnvironment.run ["risk_control_agent"]
          (fun _ => ExecResult.ok (RVal.str "risk-analysis-output"))
          ⟨some "fetch failed", []⟩ "600519") = none :=
  ⟨rfl, rfl⟩

/-- Claim C8: a run with zero registered specialists returns exactly the
two-entry error object, for every stock code, task behavior and
basic-info fetch outcome. -/
theorem C8_zero_specialists_error_object (behavior : String → ExecResult) (bi : ToolResult)
    (code : String) :
    ResearchEnvironment.run [] behavior bi code =
      [("error", RVal.str "No specialist agents completed successfully"),
       ("stock_code", RVal.str code)] := rfl

namespace DataProvider

/-- Claim C3: in `auto` mode (with the cache empty) the backends are
probed in strict priority order — a configured, non-placeholder tushare
token with a succeeding probe yields the tushare instance; otherwise
configured RQData credentials with a succeeding constructor yield the
RQData instance; otherwise the akshare instance, whose construction
needs no credentials and always succeeds, is returned. -/
theorem C3_auto_strict_priority (cfg : DataProviderConfig) (tushareOk rqdataOk : Bool)
    (hmode : cfg.provider = "auto") :
    (tushareCredOk cfg = true → tushareOk = true →
      (get_data_provider none cfg tushareOk rqdataOk).1 =
        .ok (Provider.tushare (cfg.tushare_token.getD ""))) ∧
    (try_tushare cfg tushareOk = none → rqdataCredOk cfg = true → rqdataOk = true →
      (get_data_provider none cfg tushareOk rqdataOk).1 =
        .ok (Provider.rqdata (cfg.rqdata_username.getD "") (cfg.rqdata_password.getD ""))) ∧
    (try_tushare cfg tushareOk = none → try_rqdata cfg rqdataOk = none →
      (get_data_provider none cfg tushareOk rqdataOk).1 = .ok Provider.akshare) := by
  refine ⟨?_, ?_, ?_⟩
  · intro hcred hok
    simp [get_data_provider, selectInstance, hmode, try_tushare, hcred, hok, orNone]
  · intro htt hcred hok
    simp [get_data_provider, selectInstance, hmode, htt, try_rqdata, hcred, hok, orNone]
  · intro htt hrq
    simp [get_data_provider, selectInstance, hmode, htt, hrq, orNone, try_akshare]

theorem C3_auto_strict_priority_witness :
    (get_data_provider none ⟨"auto", some "tok", some "u", some "p"⟩ true true).1 =
      .ok (Provider.tushare "tok") ∧
    (get_data_provider none ⟨"auto", some "invalid_token", some "u", some "p"⟩ true true).1 =
      .ok (Provider.rqdata "u" "p") ∧
    (get_data_provider none ⟨"auto", none, none, none⟩ true true).1 = .ok Provider.akshare :=
  ⟨(C3_auto_strict_priority ⟨"auto", some "tok", some "u", some "p"⟩ true true rfl).1 rfl rfl,
   (C3_auto_strict_priority ⟨"auto", some "invalid_token", some "u", some "p"⟩ true true rfl).2.1
     rfl rfl rfl,
   (C3_auto_strict_priority ⟨"auto", none, none, none⟩ true true rfl).2.2 rfl rfl⟩

/-- Claim C4: once a call has resolved and cached a provider instance,
every later call returns that identical instance and leaves it cached —
for any mode configured on the later call and any health-probe outcomes,
which the later call never consults. -/
theorem C4_cached_instance_sticky (cfg cfg2 : DataProviderConfig) (t r t2 r2 : Bool)
    (p : Provider) (hfirst : (get_data_provider none cfg t r).1 = .ok p) :
    (get_data_provider none cfg t r).2 = some p ∧
    get_data_provider ((get_data_provider none cfg t r).2) cfg2 t2 r2 = (.ok p, some p) := by
  have h2 : (get_data_provider none cfg t r).2 = some p := by
    unfold get_data_provider at hfirst ⊢
    cases hsel : selectInstance cfg t r with
    | error msg => rw [hsel] at hfirst; simp at hfirst
    | ok o =>
      cases o with
      | none => rw [hsel] at hfirst; simp at hfirst
      | some q =>
        rw [hsel] at hfirst
        simp at hfirst ⊢
        exact hfirst
  exact ⟨h2, by rw [h2]; rfl⟩

theorem C4_cached_instance_sticky_witness :
    (get_data_provider none ⟨"akshare", none, none, none⟩ true true).2 =
      some Provider.akshare ∧
    get_data_provider ((get_data_provider none ⟨"akshare", none, none, none⟩ true true).2)
        ⟨"tushare", some "tok", none, none⟩ false false =
      (.ok Provider.akshare, some Provider.akshare) :=
  C4_cached_instance_sticky ⟨"akshare", none, none, none⟩ ⟨"tushare", some "tok", none, none⟩
    true true false false Provider.akshare rfl

/-- Claim C7: in an explicit (non-auto) mode only that backend's probe
decides the outcome — an unavailable backend makes the call raise the
configuration (`RuntimeError`) failure with no fallback, and a returned
instance can only be the probed backend's own; an unrecognized mode
raises the `ValueError` validation failure, independently of every
backend probe. -/
theorem C7_explicit_mode_no_fallback (cfg : DataProviderConfig) (t r : Bool) :
    (cfg.provider = "tushare" → try_tushare cfg t = none →
      get_data_provider none cfg t r =
        (.error (SelErr.runtimeError ("Could not initialize data provider: " ++ cfg.provider)),
         none)) ∧
    (cfg.provider = "rqdata" → try_rqdata cfg r = none →
      get_data_provider none cfg t r =
        (.error (SelErr.runtimeError ("Could not initialize data provider: " ++ cfg.provider)),
         none)) ∧
    (cfg.provider = "tushare" → ∀ p, (get_data_provider none cfg t r).1 = .ok p →
      try_tushare cfg t = some p) ∧
    (cfg.provider = "rqdata" → ∀ p, (get_data_provider none cfg t r).1 = .ok p →
      try_rqdata cfg r = some p) ∧
    (cfg.provider ≠ "auto" → cfg.provider ≠ "tushare" → cfg.provider ≠ "rqdata" →
      cfg.provider ≠ "akshare" →
      get_data_provider none cfg t r =
        (.error (SelErr.valueError ("Unknown data provider: " ++ cfg.provider)), none)) := by
  refine ⟨?_, ?_, ?_, ?_, ?_⟩
  · intro hm htt
    simp [get_data_provider, selectInstance, hm, htt]
  · intro hm hrq
    simp [get_data_provider, selectInstance, hm, hrq]
  · intro hm p hp
    unfold get_data_provider at hp
    cases htt : try_tushare cfg t with
    | none => simp [selectInstance, hm, htt] at hp
    | some q =>
      simp [selectInstance, hm, htt] at hp
      rw [hp]
  · intro hm p hp
    unfold get_data_provider at hp
    cases hrq : try_rqdata cfg r with
    | none => simp [selectInstance, hm, hrq] at hp
    | some q =>
      simp [selectInstance, hm, hrq] at hp
      rw [hp]
  · intro h1 h2 h3 h4
    simp [get_data_provider, selectInstance, h1, h2, h3, h4]

theorem C7_explicit_mode_no_fallback_witness :
    get_data_provider none ⟨"tushare", none, none, none⟩ false false =
      (.error (SelErr.runtimeError ("Could not initialize data provider: " ++ "tushare")),
       none) ∧
    get_data_provider none ⟨"sqlite", some "tok", some "u", some "p"⟩ true true =
      (.error (SelErr.valueError ("Unknown data provider: " ++ "sqlite")), none) :=
  ⟨(C7_explicit_mode_no_fallback ⟨"tushare", none, none, none⟩ false false).1 rfl rfl,
   (C7_explicit_mode_no_fallback ⟨"sqlite", some "tok", some "u", some "p"⟩ true true).2.2.2.2
     (by decide) (by decide) (by decide) (by decide)⟩

/-- Claim C10: when a call with an empty cache raises (unknown mode, or
an explicit mode whose sole backend is unavailable), the module-level
cache is left unset, so a subsequent call behaves exactly like a fresh
first call instead of returning a cached failure. -/
theorem C10_failed_selection_not_cached (cfg : DataProviderConfig) (t r : Bool) (e : SelErr)
    (hfail : (get_data_provider none cfg t r).1 = .error e) :
    (get_data_provider none cfg t r).2 = none ∧
    ∀ cfg2 t2 r2, get_data_provider ((get_data_provider none cfg t r).2) cfg2 t2 r2 =
      get_data_provider none cfg2 t2 r2 := by
  have h2 : (get_data_provider none cfg t r).2 = none := by
    unfold get_data_provider at hfail ⊢
    cases hsel : selectInstance cfg t r with
    | error msg => rfl
    | ok o =>
      cases o with
      | none => rfl
      | some q => rw [hsel] at hfail; simp at hfail
  exact ⟨h2, fun cfg2 t2 r2 => by rw [h2]⟩

theorem C10_failed_selection_not_cached_witness :
    (get_data_provider none ⟨"bogus", none, none, none⟩ true true).2 = none ∧
    get_data_provider ((get_data_provider none ⟨"bogus", none, none, none⟩ true true).2)
        ⟨"akshare", none, none, none⟩ false false =
      get_data_provider none ⟨"akshare", none, none, none⟩ false false :=
  ⟨(C10_failed_selection_not_cached ⟨"bogus", none, none, none⟩ true true
      (.valueError ("Unknown data provider: " ++ "bogus")) rfl).1,
   (C10_failed_selection_not_cached ⟨"bogus", none, none, none⟩ true true
      (.valueError ("Unknown data provider: " ++ "bogus")) rfl).2
     ⟨"akshare", none, none, none⟩ false false⟩

end DataProvider

lemma convert_by_head (c : Char) (cs : List Char) (s : String) (hd : s.data = c :: cs) :
    TushareProvider.convert_to_ts_code s =
      (if c == '6' then s ++ ".SH"
       else if c == '0' || c == '3' then s ++ ".SZ"
       else if c == '8' || c == '4' then s ++ ".BJ"
       else s ++ ".SH") ∧
    RQDataProvider.convert_to_rq_code s =
      (if c == '6' then s ++ ".XSHG"
       else if c == '0' || c == '3' then s ++ ".XSHE"
       else if c == '8' || c == '4' then s ++ ".XSES"
       else s ++ ".XSHG") := by
  constructor <;>
    simp only [TushareProvider.convert_to_ts_code, RQDataProvider.convert_to_rq_code,
      pyStartsWith1, hd]

lemma pyStartsWith1_head (c : Char) (cs : List Char) (s : String) (hd : s.data = c :: cs)
    (d : Char) : pyStartsWith1 s d = (c == d) := by
  simp only [pyStartsWith1, hd]

/-- Claim C5: both backend code translators are pure functions of the
canonical code's leading digit — `6` yields the Shanghai-style suffix,
`0` or `3` the Shenzhen-style suffix, `8` or `4` the Beijing-style
suffix, and any other leading character falls back to the
Shanghai-style suffix instead of failing. -/
theorem C5_leading_digit_translation (s : String) :
    (pyStartsWith1 s '6' = true →
      TushareProvider.convert_to_ts_code s = s ++ ".SH" ∧
      RQDataProvider.convert_to_rq_code s = s ++ ".XSHG") ∧
    (pyStartsWith1 s '0' = true ∨ pyStartsWith1 s '3' = true →
      TushareProvider.convert_to_ts_code s = s ++ ".SZ" ∧
      RQDataProvider.convert_to_rq_code s = s ++ ".XSHE") ∧
    (pyStartsWith1 s '8' = true ∨ pyStartsWith1 s '4' = true →
      TushareProvider.convert_to_ts_code s = s ++ ".BJ" ∧
      RQDataProvider.convert_to_rq_code s = s ++ ".XSES") ∧
    (pyStartsWith1 s '6' = false → pyStartsWith1 s '0' = false →
     pyStartsWith1 s '3' = false → pyStartsWith1 s '8' = false →
     pyStartsWith1 s '4' = false →
      TushareProvider.convert_to_ts_code s = s ++ ".SH" ∧
      RQDataProvider.convert_to_rq_code s = s ++ ".XSHG") := by
  cases hd : s.data with
  | nil =>
    have hfalse : ∀ d : Char, pyStartsWith1 s d = false := by
      intro d; simp [pyStartsWith1, hd]
    have hconv : TushareProvider.convert_to_ts_code s = s ++ ".SH" ∧
        RQDataProvider.convert_to_rq_code s = s ++ ".XSHG" := by
      refine ⟨?_, ?_⟩ <;>
        simp only [TushareProvider.convert_to_ts_code, RQDataProvider.convert_to_rq_code,
          pyStartsWith1, hd] <;> rfl
    refine ⟨?_, ?_, ?_, fun _ _ _ _ _ => hconv⟩
    · intro h; rw [hfalse '6'] at h; cases h
    · intro h; rcases h with h | h
      · rw [hfalse '0'] at h; cases h
      · rw [hfalse '3'] at h; cases h
    · intro h; rcases h with h | h
      · rw [hfalse '8'] at h; cases h
      · rw [hfalse '4'] at h; cases h
  | cons c cs =>
    have hts := (convert_by_head c cs s hd).1
    have hrq := (convert_by_head c cs s hd).2
    have hpy : ∀ d : Char, pyStartsWith1 s d = (c == d) := pyStartsWith1_head c cs s hd
    refine ⟨?_, ?_, ?_, ?_⟩
    · intro h
      rw [hpy '6', beq_iff_eq] at h
      subst h
      exact ⟨by rw [hts]; rfl, by rw [hrq]; rfl⟩
    · intro h
      rcases h with h | h <;> rw [hpy, beq_iff_eq] at h <;> subst h
      · exact ⟨by rw [hts]; rfl, by rw [hrq]; rfl⟩
      · exact ⟨by rw [hts]; rfl, by rw [hrq]; rfl⟩
    · intro h
      rcases h with h | h <;> rw [hpy, beq_iff_eq] at h <;> subst h
      · exact ⟨by rw [hts]; rfl, by rw [hrq]; rfl⟩
      · exact ⟨by rw [hts]; rfl, by rw [hrq]; rfl⟩
    · intro h6 h0 h3 h8 h4
      rw [hpy '6', beq_eq_false_iff_ne] at h6
      rw [hpy '0', beq_eq_false_iff_ne] at h0
      rw [hpy '3', beq_eq_false_iff_ne] at h3
      rw [hpy '8', beq_eq_false_iff_ne] at h8
      rw [hpy '4', beq_eq_false_iff_ne] at h4
      constructor
      · rw [hts]
        simp [beq_iff_eq, h6, h0, h3, h8, h4]
      · rw [hrq]
        simp [beq_iff_eq, h6, h0, h3, h8, h4]

theorem C5_leading_digit_translation_witness :
    (TushareProvider.convert_to_ts_code "600519" = "600519" ++ ".SH" ∧
      RQDataProvider.convert_to_rq_code "600519" = "600519" ++ ".XSHG") ∧
    (TushareProvider.convert_to_ts_code "000001" = "000001" ++ ".SZ" ∧
      RQDataProvider.convert_to_rq_code "000001" = "000001" ++ ".XSHE") ∧
    (TushareProvider.convert_to_ts_code "430001" = "430001" ++ ".BJ" ∧
      RQDataProvider.convert_to_rq_code "430001" = "430001" ++ ".XSES") ∧
    (TushareProvider.convert_to_ts_code "999999" = "999999" ++ ".SH" ∧
      RQDataProvider.convert_to_rq_code "999999" = "999999" ++ ".XSHG") :=
  ⟨(C5_leading_digit_translation "600519").1 rfl,
   (C5_leading_digit_translation "000001").2.1 (Or.inl rfl),
   (C5_leading_digit_translation "430001").2.2.1 (Or.inr rfl),
   (C5_leading_digit_translation "999999").2.2.2 rfl rfl rfl rfl rfl⟩

/-- Claim C6: every fetch operation of every provider implementation
returns `None` when its underlying remote call raises, and never
propagates the exception; where a no-data path exists (empty frame or
falsy instrument) it also returns `None`, so a remote failure is
indistinguishable from absent data. -/
theorem C6_fetch_failures_swallowed (e stock_code start_date end_date : String)
    (stock_codes : List String) (row : Row)
    (goodRemote : String → Except String DataFrame) :
    AkshareProvider.get_stock_basic_info (fun _ => .error e) stock_code = none ∧
    AkshareProvider.get_daily_market_data (fun _ _ _ => .error e)
      stock_code start_date end_date = none ∧
    AkshareProvider.get_real_time_quotes (fun _ => .error e) stock_codes = none ∧
    TushareProvider.get_stock_basic_info (fun _ => .error e) goodRemote stock_code = none ∧
    TushareProvider.get_stock_basic_info (fun _ => .ok [row]) (fun _ => .error e)
      stock_code = none ∧
    TushareProvider.get_daily_market_data (fun _ _ _ => .error e)
      stock_code start_date end_date = none ∧
    TushareProvider.get_real_time_quotes (fun _ => .error e) stock_codes = none ∧
    RQDataProvider.get_stock_basic_info (fun _ => .error e) stock_code = none ∧
    RQDataProvider.get_daily_market_data (fun _ _ _ => .error e)
      stock_code start_date end_date = none ∧
    RQDataProvider.get_real_time_quotes (fun _ => .error e) stock_codes = none ∧
    AkshareProvider.get_stock_basic_info (fun _ => .ok []) stock_code = none ∧
    AkshareProvider.get_real_time_quotes (fun _ => .ok []) stock_codes = none ∧
    TushareProvider.get_stock_basic_info (fun _ => .ok []) goodRemote stock_code = none ∧
    TushareProvider.get_real_time_quotes (fun _ => .ok []) stock_codes = none ∧
    RQDataProvider.get_stock_basic_info (fun _ => .ok none) stock_code = none ∧
    RQDataProvider.get_real_time_quotes (fun _ => .ok []) stock_codes = none :=
  ⟨rfl, rfl, rfl, rfl, rfl, rfl, rfl, rfl, rfl, rfl, rfl, rfl, rfl, rfl, rfl, rfl⟩
